import Mathlib

/-!
Verification of the vaillant-netatmo-api request pipeline.

Shallow embedding of the modules `errors.py`, `token.py`, `thermostat_auth.py`
and the retry configuration of `auth.py`. Python dictionaries coming from JSON
are modelled by records of optional JSON scalars; Python `None` and an absent
key behave identically through `dict.get`, so both are `Option.none`. The
global clock `time()` becomes an explicit `now : Int` parameter (whole-second
granularity, as in `int(time())`). Exceptions become `Except` or `Option`
results. Generator-based middleware becomes a function of a response oracle.
-/

/-- JSON scalar values as they appear in token-endpoint payloads. -/
inductive JVal where
  | jstr (s : String)
  | jint (n : Int)
deriving DecidableEq, Repr

/-- Python str() of an optional form value, as urlencode applies it
(percent-escaping is the identity on the token alphabets used here). -/
def pyStr : Option JVal → String
  | none => "None"
  | some (JVal.jstr s) => s
  | some (JVal.jint n) => toString n

/-- A URL, reduced to the components the pipeline inspects. -/
structure Url where
  host : String
  path : String
deriving DecidableEq, Repr

/-- Model of httpx URL.join with an absolute-path reference: same host, new path. -/
def Url.join (u : Url) (p : String) : Url := { host := u.host, path := p }

/-- Model of httpx Request: method, url, raw body content, headers. -/
structure Request where
  method : String
  url : Url
  content : String
  headers : List (String × String)
deriving DecidableEq, Repr

/-- Token-endpoint JSON payload: the four keys `Token.__init__` reads via
`params.get`; `none` covers both an absent key and JSON null. -/
structure TokenParams where
  access_token : Option JVal
  refresh_token : Option JVal
  expires_at : Option JVal
  expires_in : Option JVal
deriving DecidableEq, Repr

/-- Model of httpx Response: status, url, raw body, elapsed duration, and the
parse of the body as a token payload (used by refresh handling). -/
structure Response where
  status_code : Nat
  url : Url
  content : String
  elapsed : Int
  json : TokenParams
deriving DecidableEq, Repr

/-- Model of httpx Response.is_error: status in 4xx or 5xx. -/
def Response.is_error (r : Response) : Bool :=
  decide (400 ≤ r.status_code ∧ r.status_code ≤ 599)

/-!
Redaction, from `errors.py`. The two substitutions are Python
`re.sub(rb"password=.+?(&|$)", rb"password=<FILTERED>&", body)` and the same
for `access_token`. The lazy fragment `.+?(&|$)` consumes at least one
character, then extends minimally until the group matches: the first `&` is
consumed by the group, or the match ends at end of input (`$` also matches
just before one trailing newline); `.` never matches a newline.
-/

/-- Lazy extension of the match after at least one value character has been
consumed: at each position first try the group `(&|$)`, else consume one more
non-newline character. Returns the input remaining after the whole match. -/
def matchValueRest : List Char → Option (List Char)
  | [] => some []
  | c :: rest =>
    if c = '&' then some rest
    else if c = '\n' then (if rest = [] then some [c] else none)
    else matchValueRest rest

/-- One attempt to match the regex fragment `.+?(&|$)` at the current
position: `.+?` must consume one non-newline character first. -/
def lazyValue : List Char → Option (List Char)
  | [] => none
  | c :: rest => if c = '\n' then none else matchValueRest rest

/-- Left-to-right non-overlapping substitution of `key` followed by
`.+?(&|$)` with `repl`, as Python re.sub performs it. The fuel is an upper
bound on the scanning steps; every step consumes at least one character, so
fuel equal to the input length is always sufficient. -/
def subFilterFuel (key repl : List Char) : Nat → List Char → List Char
  | 0, l => l
  | _ + 1, [] => []
  | fuel + 1, c :: cs =>
    if key.isPrefixOf (c :: cs) then
      match lazyValue ((c :: cs).drop key.length) with
      | some rest => repl ++ subFilterFuel key repl fuel rest
      | none => c :: subFilterFuel key repl fuel cs
    else c :: subFilterFuel key repl fuel cs

/-- Model of one Python re.sub call for the pattern `key` ++ `.+?(&|$)`. -/
def subFilter (key repl : List Char) (l : List Char) : List Char :=
  subFilterFuel key repl l.length l

/-- Model of the nested substitutions in `_sanitize_request`: first redact
`password=` values, then `access_token=` values, on the raw body text. -/
def redactBody (body : String) : String :=
  String.mk (subFilter "access_token=".data "access_token=<FILTERED>&".data
    (subFilter "password=".data "password=<FILTERED>&".data body.data))

/-- Redacted request snapshot carried by every classification. -/
structure ReqSnapshot where
  method : String
  url : Url
  body : String
deriving DecidableEq, Repr

/-- Response snapshot carried by HTTP-derived classifications. -/
structure RespSnapshot where
  status_code : Nat
  url : Url
  body : String
  duration : Int
deriving DecidableEq, Repr

/-- Model of `_sanitize_request` in `errors.py`: keep method and url, redact
the body text. -/
def sanitize_request (r : Request) : ReqSnapshot :=
  { method := r.method, url := r.url, body := redactBody r.content }

/-- Model of `_sanitize_response` in `errors.py`: status, url, body, elapsed. -/
def sanitize_response (r : Response) : RespSnapshot :=
  { status_code := r.status_code, url := r.url, body := r.content,
    duration := r.elapsed }

/-- Failure classification tags, one per exception class of `errors.py`. -/
inductive FailureKind where
  | networkTimeout
  | networkUnreachable
  | unauthorized
  | rateLimited
  | clientError
  | serverError
  | unknownResponseError
  | applicationError
  | invalidArgument
deriving DecidableEq, Repr

/-- An ApiException value: its class tag plus the redacted snapshots the
constructor stores. Transport-level failures carry no response. -/
structure ApiError where
  kind : FailureKind
  request : Option ReqSnapshot
  response : Option RespSnapshot
deriving DecidableEq, Repr

/-- Raw transport/HTTP outcomes that `client_error_handler` catches. -/
inductive RawOutcome where
  | timeout (request : Request)
  | networkError (request : Request)
  | httpStatusError (request : Request) (response : Response)
deriving Repr

/-- Status dispatch inside the HTTPStatusError branch of
`client_error_handler`, in source order: 401/403, then 429, then
`codes.is_client_error` (400-499), then `codes.is_server_error` (500-599),
then the catch-all RequestException. -/
def classifyStatus (s : Nat) : FailureKind :=
  if s = 401 ∨ s = 403 then FailureKind.unauthorized
  else if s = 429 then FailureKind.rateLimited
  else if 400 ≤ s ∧ s ≤ 499 then FailureKind.clientError
  else if 500 ≤ s ∧ s ≤ 599 then FailureKind.serverError
  else FailureKind.unknownResponseError

/-- Model of `client_error_handler` in `errors.py`: maps the caught raw
outcome to the one exception it raises, except-clause order giving the
precedence timeout, then network error, then HTTP status dispatch. It is a
pure labelling function: it performs no retry and no other effect. -/
def client_error_handler : RawOutcome → ApiError
  | RawOutcome.timeout req =>
      { kind := FailureKind.networkTimeout,
        request := some (sanitize_request req), response := none }
  | RawOutcome.networkError req =>
      { kind := FailureKind.networkUnreachable,
        request := some (sanitize_request req), response := none }
  | RawOutcome.httpStatusError req resp =>
      { kind := classifyStatus resp.status_code,
        request := some (sanitize_request req),
        response := some (sanitize_response resp) }

/-- The class hierarchy of `errors.py` as a predicate on tags: the
RetryableException subclasses are NetworkTimeoutException, NetworkException,
RequestServerException and RequestException; RequestUnauthorizedException,
RequestBackoffException and RequestClientException extend
NonRetryableException; UnsuportedArgumentsException and
NonOkResponseException extend plain Exception and are never retried. -/
def isRetryableKind : FailureKind → Bool
  | FailureKind.networkTimeout => true
  | FailureKind.networkUnreachable => true
  | FailureKind.serverError => true
  | FailureKind.unknownResponseError => true
  | FailureKind.unauthorized => false
  | FailureKind.rateLimited => false
  | FailureKind.clientError => false
  | FailureKind.applicationError => false
  | FailureKind.invalidArgument => false

/-- Whether an exception value is an instance of RetryableException, as the
tenacity predicate retry_if_exception_type(RetryableException) tests it. -/
def isRetryableException (e : ApiError) : Bool := isRetryableKind e.kind

/-!
Token and TokenStore, from `token.py`.
-/

/-- A bearer token as `Token.__init__` stores it: access and refresh token
values are kept as the raw JSON values read from the payload; the expiry is
normalized to an absolute epoch second or absent. -/
structure Token where
  access_token : Option JVal
  refresh_token : Option JVal
  expires_at : Option Int
deriving DecidableEq, Repr

/-- Model of `Token.__init__`: an integer `expires_at` is taken as-is,
otherwise an integer `expires_in` yields `int(time()) + expires_in`,
otherwise the expiry is absent. `now` is `int(time())`. -/
def Token.ofParams (now : Int) (params : TokenParams) : Token :=
  { access_token := params.access_token
    refresh_token := params.refresh_token
    expires_at :=
      match params.expires_at with
      | some (JVal.jint n) => some n
      | _ =>
        match params.expires_in with
        | some (JVal.jint m) => some (now + m)
        | _ => none }

/-- Model of the `Token.is_expired` property. Python `not self._expires_at`
is true both for `None` and for the integer `0`. -/
def Token.is_expired (now : Int) (t : Token) : Bool :=
  match t.expires_at with
  | none => true
  | some e => if e = 0 then true else decide (e < now)

/-- Model of `Token.serialize`, at the JSON-object level: the three-field
dict passed to json.dumps. json.loads of the dumped text restores this
object, so the persisted string is represented by the object it encodes. -/
def Token.serialize (t : Token) : TokenParams :=
  { access_token := t.access_token
    refresh_token := t.refresh_token
    expires_at := t.expires_at.map JVal.jint
    expires_in := none }

/-- Model of `Token.deserialize`: `Token(json.loads(token))`. -/
def Token.deserialize (now : Int) (s : TokenParams) : Token :=
  Token.ofParams now s

/-- Python-level errors distinct from the ApiException taxonomy. An
AttributeError is what `None.refresh_token` raises; an
UnsuportedArgumentsException is the InvalidArgument classification. -/
inductive PyErr where
  | attributeError
  | unsuportedArguments
deriving DecidableEq, Repr

/-- Model of TokenStore state. `observerLog` records the arguments of the
observer-callback invocations in order and `setCount` counts the setter
invocations; both are instrumentation for stating frame properties and do
not exist in the Python state. `hasObserver` is whether `on_token_update`
was provided. -/
structure TokenStore where
  client_id : String
  client_secret : String
  token : Option Token
  hasObserver : Bool
  observerLog : List Token
  setCount : Nat
deriving DecidableEq, Repr

/-- Model of the `TokenStore.token` property setter: store the new token,
then invoke the observer callback (when one was provided) with the newly
stored token. -/
def TokenStore.setToken (s : TokenStore) (t : Token) : TokenStore :=
  { s with
    token := some t
    setCount := s.setCount + 1
    observerLog := if s.hasObserver then s.observerLog ++ [t] else s.observerLog }

/-- Model of the `TokenStore.refresh_token_request` property: the form dict
with the four grant fields, reading `self._token.refresh_token`. When the
store holds no token, Python raises AttributeError on the `None` attribute
access. -/
def TokenStore.refresh_token_request (s : TokenStore) :
    Except PyErr (List (String × Option JVal)) :=
  match s.token with
  | none => Except.error PyErr.attributeError
  | some t => Except.ok
      [("grant_type", some (JVal.jstr "refresh_token")),
       ("client_id", some (JVal.jstr s.client_id)),
       ("client_secret", some (JVal.jstr s.client_secret)),
       ("refresh_token", t.refresh_token)]

/-!
The auth interceptor, from `thermostat_auth.py`.
-/

/-- The module constant `_TOKEN_PATH` of `thermostat_auth.py`. -/
def TOKEN_PATH : String := "/oauth2/token"

/-- Form-encoding of a dict, as httpx applies it to `data=`; values go
through Python str(), percent-escaping modelled as the identity. -/
def formEncode (l : List (String × Option JVal)) : String :=
  String.intercalate "&" (l.map (fun p => p.1 ++ "=" ++ pyStr p.2))

/-- Model of `ThermostatAuth._headers_without_content_length`: drop the
content-length entry (httpx header names are lowercase). -/
def headersWithoutContentLength (hs : List (String × String)) :
    List (String × String) :=
  hs.filter (fun p => p.1 ≠ "content-length")

/-- Model of `ThermostatAuth._content_with_access_token`:
`b'&'.join([content, access_token_content])` where the second part is the
urlencoded access token when the store holds a token, empty otherwise. -/
def contentWithAccessToken (s : TokenStore) (content : String) : String :=
  match s.token with
  | none => content ++ "&"
  | some t => content ++ "&" ++ "access_token=" ++ pyStr t.access_token

/-- Model of `ThermostatAuth._get_access_token_request`: same method and
url, token-augmented content, content-length header stripped. -/
def get_access_token_request (s : TokenStore) (request : Request) : Request :=
  { method := request.method
    url := request.url
    content := contentWithAccessToken s request.content
    headers := headersWithoutContentLength request.headers }

/-- Model of `ThermostatAuth._get_refresh_token_request`: POST to the token
endpoint resolved against the request url, body form-encoded from
`refresh_token_request`; the AttributeError of the latter propagates. -/
def get_refresh_token_request (s : TokenStore) (request : Request) :
    Except PyErr Request :=
  (TokenStore.refresh_token_request s).map (fun d =>
    { method := "POST"
      url := request.url.join TOKEN_PATH
      content := formEncode d
      headers := [] })

/-- Model of `ThermostatAuth._process_refresh_response`: on a non-error
refresh response, replace the stored token with `Token(response.json())`;
on an error response do nothing. -/
def process_refresh_response (now : Int) (s : TokenStore) (response : Response) :
    TokenStore :=
  if response.is_error then s
  else TokenStore.setToken s (Token.ofParams now response.json)

/-- Model of `ThermostatAuth.auth_flow`. The generator is embedded as a
function of a response oracle: `oracle i` is the response the transport
returns to the i-th request the flow yields. The result is the list of
requests actually yielded in order, then the final response the flow
delivers upstream (`none` models the AttributeError escaping while building
the refresh request), then the final token-store state. -/
def auth_flow (now : Int) (s : TokenStore) (request : Request)
    (oracle : Nat → Response) : List Request × Option Response × TokenStore :=
  let r1 := get_access_token_request s request
  let resp1 := oracle 0
  if resp1.status_code = 401 ∨ resp1.status_code = 403 then
    match get_refresh_token_request s request with
    | Except.error _ => ([r1], none, s)
    | Except.ok rr =>
      let refreshResp := oracle 1
      let s2 := process_refresh_response now s refreshResp
      let r2 := get_access_token_request s2 request
      ([r1, rr, r2], some (oracle 2), s2)
  else ([r1], some resp1, s)

/-- Number of requests in a trace sent to the given url path. -/
def countPath (trace : List Request) (p : String) : Nat :=
  (trace.filter (fun r => r.url.path = p)).length

/-!
The retry engine, from `auth.py`: the tenacity decorator on
`async_get_token` with retry_if_exception_type(RetryableException),
stop_after_delay(300) or-combined with stop_after_attempt(10),
wait_random_exponential(multiplier=1, max=30), reraise=True.
-/

/-- One attempt outcome of the decorated coroutine: a fetched token payload
or a raised exception. -/
inductive Outcome where
  | success (t : TokenParams)
  | failure (e : ApiError)
deriving DecidableEq, Repr

/-- Upper end of the jitter interval of tenacity wait_random_exponential:
the delay slept after attempt `n` is drawn uniformly from
`[0, min(max, multiplier * 2 ^ n)]`. -/
def wait_random_exponential_upper (multiplier maxDelay n : Nat) : Nat :=
  min maxDelay (multiplier * 2 ^ n)

/-- The tenacity retry loop, from attempt number `n` (1-based). `outcomes k`
is what attempt `k` produces; `elapsedAfter k` is the seconds elapsed since
the first attempt started, read when attempt `k` finishes, which is where
tenacity evaluates its stop condition. An exception not matching the retry
predicate is reraised at once; a matching one is reraised when
stop_after_delay(300) or stop_after_attempt(10) fires, and otherwise the
loop sleeps and re-attempts. With reraise=True the surfaced error is the
last exception itself. Returns the surfaced outcome and the number of the
last attempt performed. -/
def tenacityCall (outcomes : Nat → Outcome) (elapsedAfter : Nat → Nat)
    (n : Nat) : Outcome × Nat :=
  match outcomes n with
  | Outcome.success v => (Outcome.success v, n)
  | Outcome.failure e =>
    if isRetryableException e then
      if 300 ≤ elapsedAfter n ∨ 10 ≤ n then (Outcome.failure e, n)
      else tenacityCall outcomes elapsedAfter (n + 1)
    else (Outcome.failure e, n)
termination_by 10 - n
decreasing_by omega

/-- Model of `AuthClient.async_get_token` under its retry decorator: the
loop starts at attempt 1, with zero elapsed time. -/
def async_get_token (outcomes : Nat → Outcome) (elapsedAfter : Nat → Nat) :
    Outcome × Nat :=
  tenacityCall outcomes elapsedAfter 1

/-!
Claim theorems: error taxonomy.
-/

/-- C2: for every raw transport/HTTP outcome, `client_error_handler` assigns
exactly one failure tag, with precedence transport timeout, then network
error, then HTTP 401/403 (Unauthorized), then 429 (RateLimited), then other
4xx (ClientError), then 5xx (ServerError), then any other non-2xx
(UnknownResponseError); being a pure function it only labels, with no retry
and no other side effect. -/
theorem client_error_handler_precedence :
    (∀ req, (client_error_handler (RawOutcome.timeout req)).kind =
      FailureKind.networkTimeout) ∧
    (∀ req, (client_error_handler (RawOutcome.networkError req)).kind =
      FailureKind.networkUnreachable) ∧
    (∀ req resp,
      ((client_error_handler (RawOutcome.httpStatusError req resp)).kind =
          FailureKind.unauthorized ↔
        (resp.status_code = 401 ∨ resp.status_code = 403)) ∧
      ((client_error_handler (RawOutcome.httpStatusError req resp)).kind =
          FailureKind.rateLimited ↔ resp.status_code = 429) ∧
      ((client_error_handler (RawOutcome.httpStatusError req resp)).kind =
          FailureKind.clientError ↔
        (400 ≤ resp.status_code ∧ resp.status_code ≤ 499 ∧
         resp.status_code ≠ 401 ∧ resp.status_code ≠ 403 ∧
         resp.status_code ≠ 429)) ∧
      ((client_error_handler (RawOutcome.httpStatusError req resp)).kind =
          FailureKind.serverError ↔
        (500 ≤ resp.status_code ∧ resp.status_code ≤ 599)) ∧
      ((client_error_handler (RawOutcome.httpStatusError req resp)).kind =
          FailureKind.unknownResponseError ↔
        (resp.status_code < 400 ∨ 600 ≤ resp.status_code))) := by
  refine ⟨fun req => rfl, fun req => rfl, fun req resp => ?_⟩
  simp only [client_error_handler, classifyStatus]
  split_ifs with h1 h2 h3 h4 <;> simp_all <;> omega

/-- C3: retryability is a pure function of the failure tag alone:
NetworkTimeout, NetworkUnreachable, ServerError and UnknownResponseError are
retryable, all other tags are terminal, independently of the request and
response payloads the failure carries. -/
theorem retryable_pure_function_of_tag :
    (∀ e₁ e₂ : ApiError, e₁.kind = e₂.kind →
      isRetryableException e₁ = isRetryableException e₂) ∧
    (∀ e : ApiError, isRetryableException e = true ↔
      (e.kind = FailureKind.networkTimeout ∨
       e.kind = FailureKind.networkUnreachable ∨
       e.kind = FailureKind.serverError ∨
       e.kind = FailureKind.unknownResponseError)) ∧
    (∀ e : ApiError, isRetryableException e = false ↔
      (e.kind = FailureKind.unauthorized ∨
       e.kind = FailureKind.rateLimited ∨
       e.kind = FailureKind.clientError ∨
       e.kind = FailureKind.applicationError ∨
       e.kind = FailureKind.invalidArgument)) := by
  refine ⟨fun e₁ e₂ h => by simp [isRetryableException, h], ?_, ?_⟩ <;>
    intro e <;> cases h : e.kind <;>
    simp [isRetryableException, isRetryableKind, h]

/-- Witness for C3 at a concrete pair of errors sharing a tag but differing
in their payloads. -/
theorem retryable_pure_function_of_tag_witness :
    isRetryableException
        { kind := FailureKind.serverError, request := none, response := none } =
      isRetryableException
        { kind := FailureKind.serverError,
          request := some { method := "POST", url := { host := "h", path := "/p" },
                            body := "b" },
          response := none } :=
  retryable_pure_function_of_tag.1 _ _ rfl

/-!
Claim theorems: token store.
-/

/-- C9: serializing a credential to its persisted form and deserializing it
reproduces an equal credential: access token, refresh token and absolute
expiry all equal, for every credential and every deserialization time. -/
theorem token_serialize_roundtrip (now : Int) (t : Token) :
    Token.deserialize now (Token.serialize t) = t := by
  cases t with
  | mk a r e =>
    cases e <;> simp [Token.deserialize, Token.serialize, Token.ofParams]

/-- Integer test used by `Token.__init__`, Python isinstance(v, int). -/
def isIntVal : Option JVal → Bool
  | some (JVal.jint _) => true
  | _ => false

/-- C8: credential expiry is normalized to an absolute expires_at: an
integer expires_at is taken as-is, otherwise an integer expires_in yields
now + expires_in, otherwise the expiry is absent; and a credential with
absent expiry is already expired. -/
theorem token_expiry_normalization :
    (∀ (now : Int) (p : TokenParams) (n : Int),
      p.expires_at = some (JVal.jint n) →
      (Token.ofParams now p).expires_at = some n) ∧
    (∀ (now : Int) (p : TokenParams) (m : Int),
      isIntVal p.expires_at = false → p.expires_in = some (JVal.jint m) →
      (Token.ofParams now p).expires_at = some (now + m)) ∧
    (∀ (now : Int) (p : TokenParams),
      isIntVal p.expires_at = false → isIntVal p.expires_in = false →
      (Token.ofParams now p).expires_at = none) ∧
    (∀ (now : Int) (t : Token), t.expires_at = none →
      Token.is_expired now t = true) := by
  refine ⟨?_, ?_, ?_, ?_⟩
  · intro now p n h; simp [Token.ofParams, h]
  · intro now p m h1 h2
    cases ha : p.expires_at with
    | none => simp [Token.ofParams, ha, h2]
    | some v => cases v <;> simp_all [Token.ofParams, isIntVal]
  · intro now p h1 h2
    cases ha : p.expires_at with
    | none =>
      cases hb : p.expires_in with
      | none => simp [Token.ofParams, ha, hb]
      | some w => cases w <;> simp_all [Token.ofParams, isIntVal]
    | some v =>
      cases v with
      | jint n => simp_all [isIntVal]
      | jstr s =>
        cases hb : p.expires_in with
        | none => simp [Token.ofParams, ha, hb]
        | some w => cases w <;> simp_all [Token.ofParams, isIntVal]
  · intro now t h
    simp [Token.is_expired, h]

/-- Witness for C8 on concrete payloads exercising each normalization arm. -/
theorem token_expiry_normalization_witness :
    (Token.ofParams 1000
        { access_token := some (JVal.jstr "a"), refresh_token := none,
          expires_at := some (JVal.jint 12), expires_in := some (JVal.jint 5) }
      ).expires_at = some 12 ∧
    (Token.ofParams 1000
        { access_token := none, refresh_token := none,
          expires_at := some (JVal.jstr "invalid"),
          expires_in := some (JVal.jint 5) }).expires_at = some 1005 ∧
    (Token.ofParams 1000
        { access_token := none, refresh_token := none,
          expires_at := none, expires_in := none }).expires_at = none ∧
    Token.is_expired 1000
      { access_token := none, refresh_token := none, expires_at := none } = true :=
  ⟨token_expiry_normalization.1 1000 _ 12 rfl,
   token_expiry_normalization.2.1 1000 _ 5 rfl rfl,
   token_expiry_normalization.2.2.1 1000 _ rfl rfl,
   token_expiry_normalization.2.2.2 1000 _ rfl⟩

/-- A store holding no credential at all. -/
def storeNoToken : TokenStore :=
  { client_id := "ci", client_secret := "cs", token := none,
    hasObserver := false, observerLog := [], setCount := 0 }

/-- A credential that holds no refresh token. -/
def tokenNoRefresh : Token :=
  { access_token := some (JVal.jstr "at"), refresh_token := none,
    expires_at := none }

/-- C6 counterexample: with no current credential,
`TokenStore.refresh_token_request` raises AttributeError, which is not the
InvalidArgument classification; and with a credential that lacks a refresh
token it does not fail at all, returning the map with an absent value. -/
theorem refresh_token_request_no_invalid_argument :
    TokenStore.refresh_token_request storeNoToken =
      Except.error PyErr.attributeError ∧
    PyErr.attributeError ≠ PyErr.unsuportedArguments ∧
    TokenStore.refresh_token_request { storeNoToken with token := some tokenNoRefresh } =
      Except.ok [("grant_type", some (JVal.jstr "refresh_token")),
                 ("client_id", some (JVal.jstr "ci")),
                 ("client_secret", some (JVal.jstr "cs")),
                 ("refresh_token", none)] :=
  ⟨rfl, by decide, rfl⟩

/-- C6 (amended): `refresh_token_request` returns the map containing exactly
grant_type=refresh_token, client_id, client_secret and the refresh token of
the current credential whenever a credential is present — an absent refresh
token is passed through as an absent value, with no error — and when no
credential is present it fails with AttributeError, not with the
InvalidArgument classification. -/
theorem refresh_token_request_shape (s : TokenStore) :
    (s.token = none →
      TokenStore.refresh_token_request s = Except.error PyErr.attributeError) ∧
    (∀ t, s.token = some t →
      TokenStore.refresh_token_request s = Except.ok
        [("grant_type", some (JVal.jstr "refresh_token")),
         ("client_id", some (JVal.jstr s.client_id)),
         ("client_secret", some (JVal.jstr s.client_secret)),
         ("refresh_token", t.refresh_token)]) := by
  constructor
  · intro h; simp [TokenStore.refresh_token_request, h]
  · intro t h; simp [TokenStore.refresh_token_request, h]

/-- Witness for C6 (amended) on concrete stores for both arms. -/
theorem refresh_token_request_shape_witness :
    TokenStore.refresh_token_request storeNoToken =
      Except.error PyErr.attributeError ∧
    TokenStore.refresh_token_request
        { storeNoToken with token := some tokenNoRefresh } =
      Except.ok [("grant_type", some (JVal.jstr "refresh_token")),
                 ("client_id", some (JVal.jstr "ci")),
                 ("client_secret", some (JVal.jstr "cs")),
                 ("refresh_token", none)] :=
  ⟨(refresh_token_request_shape storeNoToken).1 rfl,
   (refresh_token_request_shape _).2 tokenNoRefresh rfl⟩

/-- C7: on the request body a=b&access_token=SECRET&c=d&password=PW the
redacted snapshot replaces the access_token value and the password value
with the fixed marker and leaves a=b and c=d intact, for any method, url
and headers of the request. -/
theorem sanitize_request_redacts_body (method : String) (u : Url)
    (hs : List (String × String)) :
    (sanitize_request
        { method := method, url := u,
          content := "a=b&access_token=SECRET&c=d&password=PW",
          headers := hs }).body =
      "a=b&access_token=<FILTERED>&c=d&password=<FILTERED>&" := by
  rfl

/-!
Claim theorems: the auth interceptor.
-/

/-- C1: per logical call the interceptor sends at most one refresh request
and the original request at most twice; when the first response is 401/403
and the store holds a credential, the call performs exactly two sends to the
resource endpoint and one send to the token endpoint and delivers the third
response upstream as-is, whatever its status — a second 401/403 after the
refresh never triggers another refresh; otherwise the single response is
returned unchanged. -/
theorem auth_flow_single_refresh (now : Int) (s : TokenStore)
    (request : Request) (oracle : Nat → Response)
    (hpath : request.url.path ≠ TOKEN_PATH) :
    countPath (auth_flow now s request oracle).1 TOKEN_PATH ≤ 1 ∧
    countPath (auth_flow now s request oracle).1 request.url.path ≤ 2 ∧
    (((oracle 0).status_code = 401 ∨ (oracle 0).status_code = 403) →
      ∀ t, s.token = some t →
      countPath (auth_flow now s request oracle).1 TOKEN_PATH = 1 ∧
      countPath (auth_flow now s request oracle).1 request.url.path = 2 ∧
      (auth_flow now s request oracle).1.length = 3 ∧
      (auth_flow now s request oracle).2.1 = some (oracle 2)) ∧
    (¬((oracle 0).status_code = 401 ∨ (oracle 0).status_code = 403) →
      (auth_flow now s request oracle).1 = [get_access_token_request s request] ∧
      (auth_flow now s request oracle).2.1 = some (oracle 0)) := by
  by_cases h401 : (oracle 0).status_code = 401 ∨ (oracle 0).status_code = 403
  · cases hs : s.token with
    | none =>
      have hrr : get_refresh_token_request s request =
          Except.error PyErr.attributeError := by
        simp [get_refresh_token_request, TokenStore.refresh_token_request, hs,
          Except.map]
      simp [auth_flow, h401, hrr, countPath, get_access_token_request, hpath, hs]
    | some t =>
      have hrr : get_refresh_token_request s request = Except.ok
          { method := "POST", url := request.url.join TOKEN_PATH,
            content := formEncode
              [("grant_type", some (JVal.jstr "refresh_token")),
               ("client_id", some (JVal.jstr s.client_id)),
               ("client_secret", some (JVal.jstr s.client_secret)),
               ("refresh_token", t.refresh_token)],
            headers := [] } := by
        simp [get_refresh_token_request, TokenStore.refresh_token_request, hs,
          Except.map]
      simp [auth_flow, h401, hrr, countPath, get_access_token_request,
        Url.join, hpath, Ne.symm hpath, hs]
  · simp [auth_flow, h401, countPath, get_access_token_request, hpath]

/-- Witness for C1 in the refresh scenario on concrete data. -/
theorem auth_flow_single_refresh_witness :
    countPath
        (auth_flow 0 { storeNoToken with token := some tokenNoRefresh }
          { method := "POST", url := { host := "h", path := "/api/x" },
            content := "a=b", headers := [] }
          (fun _ => { status_code := 401, url := { host := "h", path := "/api/x" },
                      content := "", elapsed := 0,
                      json := { access_token := none, refresh_token := none,
                                expires_at := none, expires_in := none } })).1
        TOKEN_PATH = 1 := by
  have h := auth_flow_single_refresh 0
    { storeNoToken with token := some tokenNoRefresh }
    { method := "POST", url := { host := "h", path := "/api/x" },
      content := "a=b", headers := [] }
    (fun _ => { status_code := 401, url := { host := "h", path := "/api/x" },
                content := "", elapsed := 0,
                json := { access_token := none, refresh_token := none,
                          expires_at := none, expires_in := none } })
    (by decide)
  exact (h.2.2.1 (Or.inl rfl) tokenNoRefresh rfl).1

/-- C5: per logical call the interceptor mutates the credential store zero
or one times — zero when the first response is not a 401/403 — and every
mutation goes through the token setter, which stores the new credential and
invokes the observer callback, when one is set, exactly once with the newly
stored credential. -/
theorem auth_flow_store_mutations (now : Int) (s : TokenStore)
    (request : Request) (oracle : Nat → Response) :
    ((auth_flow now s request oracle).2.2 = s ∨
      ∃ t, (auth_flow now s request oracle).2.2 = TokenStore.setToken s t) ∧
    (auth_flow now s request oracle).2.2.setCount ≤ s.setCount + 1 ∧
    (¬((oracle 0).status_code = 401 ∨ (oracle 0).status_code = 403) →
      (auth_flow now s request oracle).2.2 = s) ∧
    (∀ (u : TokenStore) (t : Token),
      (TokenStore.setToken u t).token = some t ∧
      (TokenStore.setToken u t).setCount = u.setCount + 1 ∧
      (u.hasObserver = true →
        (TokenStore.setToken u t).observerLog = u.observerLog ++ [t]) ∧
      (u.hasObserver = false →
        (TokenStore.setToken u t).observerLog = u.observerLog)) := by
  have hset : ∀ (u : TokenStore) (t : Token),
      (TokenStore.setToken u t).token = some t ∧
      (TokenStore.setToken u t).setCount = u.setCount + 1 ∧
      (u.hasObserver = true →
        (TokenStore.setToken u t).observerLog = u.observerLog ++ [t]) ∧
      (u.hasObserver = false →
        (TokenStore.setToken u t).observerLog = u.observerLog) := by
    intro u t
    refine ⟨rfl, rfl, fun h => ?_, fun h => ?_⟩ <;> simp [TokenStore.setToken, h]
  by_cases h401 : (oracle 0).status_code = 401 ∨ (oracle 0).status_code = 403
  · cases hs : s.token with
    | none =>
      have hrr : get_refresh_token_request s request =
          Except.error PyErr.attributeError := by
        simp [get_refresh_token_request, TokenStore.refresh_token_request, hs,
          Except.map]
      refine ⟨Or.inl ?_, ?_, fun hcon => absurd h401 hcon, hset⟩ <;>
        simp [auth_flow, h401, hrr]
    | some t =>
      have hrr : get_refresh_token_request s request = Except.ok
          { method := "POST", url := request.url.join TOKEN_PATH,
            content := formEncode
              [("grant_type", some (JVal.jstr "refresh_token")),
               ("client_id", some (JVal.jstr s.client_id)),
               ("client_secret", some (JVal.jstr s.client_secret)),
               ("refresh_token", t.refresh_token)],
            headers := [] } := by
        simp [get_refresh_token_request, TokenStore.refresh_token_request, hs,
          Except.map]
      by_cases he : (oracle 1).is_error
      · refine ⟨Or.inl ?_, ?_, fun hcon => absurd h401 hcon, hset⟩ <;>
          simp [auth_flow, h401, hrr, process_refresh_response, he]
      · refine ⟨Or.inr ⟨Token.ofParams now (oracle 1).json, ?_⟩, ?_,
          fun hcon => absurd h401 hcon, hset⟩ <;>
          simp [auth_flow, h401, hrr, process_refresh_response, he,
            TokenStore.setToken]
  · refine ⟨Or.inl ?_, ?_, fun _ => ?_, hset⟩ <;> simp [auth_flow, h401]

/-- Witness for C5 on a concrete non-401 call: the store is unmutated. -/
theorem auth_flow_store_mutations_witness :
    (auth_flow 0 storeNoToken
        { method := "POST", url := { host := "h", path := "/api/x" },
          content := "a=b", headers := [] }
        (fun _ => { status_code := 200, url := { host := "h", path := "/api/x" },
                    content := "", elapsed := 0,
                    json := { access_token := none, refresh_token := none,
                              expires_at := none, expires_in := none } })).2.2 =
      storeNoToken :=
  (auth_flow_store_mutations 0 storeNoToken _ _).2.2.1 (by decide)

/-- C10: after a 401/403 first response, when the refresh call returns an
error response the interceptor still sends the retried original request
exactly once, ignores the refresh error silently — the flow terminates
normally, raising and classifying nothing itself — leaves the credential
store unchanged, and the retried request is byte-identical to the first
attempt, carrying the old stale access token; the response delivered
upstream is the second response of the original request, not the refresh
failure. -/
theorem auth_flow_refresh_error_ignored (now : Int) (s : TokenStore)
    (request : Request) (oracle : Nat → Response)
    (h401 : (oracle 0).status_code = 401 ∨ (oracle 0).status_code = 403)
    (t : Token) (htok : s.token = some t)
    (herr : (oracle 1).is_error = true) :
    (∃ rr, (auth_flow now s request oracle).1 =
        [get_access_token_request s request, rr,
         get_access_token_request s request] ∧
      rr.url.path = TOKEN_PATH) ∧
    (get_access_token_request s request).content =
      request.content ++ "&" ++ "access_token=" ++ pyStr t.access_token ∧
    (auth_flow now s request oracle).2.2 = s ∧
    (auth_flow now s request oracle).2.1 = some (oracle 2) := by
  have hrr : get_refresh_token_request s request = Except.ok
      { method := "POST", url := request.url.join TOKEN_PATH,
        content := formEncode
          [("grant_type", some (JVal.jstr "refresh_token")),
           ("client_id", some (JVal.jstr s.client_id)),
           ("client_secret", some (JVal.jstr s.client_secret)),
           ("refresh_token", t.refresh_token)],
        headers := [] } := by
    simp [get_refresh_token_request, TokenStore.refresh_token_request, htok,
      Except.map]
  refine ⟨⟨{ method := "POST", url := request.url.join TOKEN_PATH,
             content := formEncode
               [("grant_type", some (JVal.jstr "refresh_token")),
                ("client_id", some (JVal.jstr s.client_id)),
                ("client_secret", some (JVal.jstr s.client_secret)),
                ("refresh_token", t.refresh_token)],
             headers := [] }, ?_, ?_⟩, ?_, ?_, ?_⟩ <;>
    simp [auth_flow, h401, hrr, process_refresh_response, herr, Url.join,
      get_access_token_request, contentWithAccessToken, htok]

/-- Witness for C10 on concrete data: a 401 first response and a 500 refresh
response leave the store unchanged. -/
theorem auth_flow_refresh_error_ignored_witness :
    (auth_flow 0 { storeNoToken with token := some tokenNoRefresh }
        { method := "POST", url := { host := "h", path := "/api/x" },
          content := "a=b", headers := [] }
        (fun i => { status_code := if i = 0 then 401 else 500,
                    url := { host := "h", path := "/api/x" },
                    content := "", elapsed := 0,
                    json := { access_token := none, refresh_token := none,
                              expires_at := none, expires_in := none } })).2.2 =
      { storeNoToken with token := some tokenNoRefresh } :=
  (auth_flow_refresh_error_ignored 0
    { storeNoToken with token := some tokenNoRefresh }
    { method := "POST", url := { host := "h", path := "/api/x" },
      content := "a=b", headers := [] }
    (fun i => { status_code := if i = 0 then 401 else 500,
                url := { host := "h", path := "/api/x" },
                content := "", elapsed := 0,
                json := { access_token := none, refresh_token := none,
                          expires_at := none, expires_in := none } })
    (Or.inl rfl) tokenNoRefresh rfl rfl).2.2.1

/-!
Claim theorems: the retry engine.
-/

/-- One unfolding of the retry loop. -/
theorem tenacityCall_eq (o : Nat → Outcome) (f : Nat → Nat) (n : Nat) :
    tenacityCall o f n =
      match o n with
      | Outcome.success v => (Outcome.success v, n)
      | Outcome.failure e =>
        if isRetryableException e then
          if 300 ≤ f n ∨ 10 ≤ n then (Outcome.failure e, n)
          else tenacityCall o f (n + 1)
        else (Outcome.failure e, n) := by
  rw [tenacityCall]

/-- Once the attempt counter reaches the stop bound the loop stops at it. -/
theorem tenacityCall_at_stop (o : Nat → Outcome) (f : Nat → Nat) (n : Nat)
    (hn : 10 ≤ n) : (tenacityCall o f n).2 = n := by
  rw [tenacityCall_eq]
  cases h : o n with
  | success v => rfl
  | failure e =>
    by_cases hre : isRetryableException e <;> simp [hre, hn]

/-- The loop never performs an attempt numbered above ten. -/
theorem tenacityCall_le_ten (o : Nat → Outcome) (f : Nat → Nat) :
    ∀ (k n : Nat), 10 - n ≤ k → n ≤ 10 → (tenacityCall o f n).2 ≤ 10 := by
  intro k
  induction k with
  | zero =>
    intro n hk hn
    have h10 : (10 : Nat) ≤ n := by omega
    rw [tenacityCall_at_stop o f n h10]
    omega
  | succ k ih =>
    intro n hk hn
    rw [tenacityCall_eq]
    cases h : o n with
    | success v => simpa using hn
    | failure e =>
      by_cases hre : isRetryableException e
      · by_cases hstop : 300 ≤ f n ∨ 10 ≤ n
        · simpa [hre, hstop] using hn
        · have hlt : n < 10 := by omega
          have := ih (n + 1) (by omega) (by omega)
          simpa [hre, hstop] using this
      · simpa [hre] using hn

/-- The surfaced failure is the outcome of the last attempt performed. -/
theorem tenacityCall_last_failure (o : Nat → Outcome) (f : Nat → Nat) :
    ∀ (k n : Nat), 10 - n ≤ k → ∀ e, (tenacityCall o f n).1 = Outcome.failure e →
      o ((tenacityCall o f n).2) = Outcome.failure e := by
  intro k
  induction k with
  | zero =>
    intro n hk e hfail
    have h10 : (10 : Nat) ≤ n := by omega
    rw [tenacityCall_at_stop o f n h10]
    rw [tenacityCall_eq] at hfail
    cases h : o n with
    | success v => simp [h] at hfail
    | failure e' =>
      by_cases hre : isRetryableException e' <;> simp_all [h10]
  | succ k ih =>
    intro n hk e hfail
    rw [tenacityCall_eq] at hfail ⊢
    cases h : o n with
    | success v => simp [h] at hfail
    | failure e' =>
      by_cases hre : isRetryableException e'
      · by_cases hstop : 300 ≤ f n ∨ 10 ≤ n
        · simp_all [hre, hstop]
        · simp only [h, hre, if_true, hstop, if_false] at hfail ⊢
          exact ih (n + 1) (by omega) e hfail
      · simp_all [hre]

/-- Every attempt strictly before the last one was a retryable failure made
with the budget not yet exhausted. -/
theorem tenacityCall_budget (o : Nat → Outcome) (f : Nat → Nat) :
    ∀ (k n : Nat), 10 - n ≤ k → ∀ j, n ≤ j → j < (tenacityCall o f n).2 →
      j < 10 ∧ f j < 300 ∧
      ∃ e, o j = Outcome.failure e ∧ isRetryableException e = true := by
  intro k
  induction k with
  | zero =>
    intro n hk j hnj hjlt
    have h10 : (10 : Nat) ≤ n := by omega
    rw [tenacityCall_at_stop o f n h10] at hjlt
    omega
  | succ k ih =>
    intro n hk j hnj hjlt
    rw [tenacityCall_eq] at hjlt
    cases h : o n with
    | success v => simp [h] at hjlt; omega
    | failure e =>
      by_cases hre : isRetryableException e
      · by_cases hstop : 300 ≤ f n ∨ 10 ≤ n
        · simp [h, hre, hstop] at hjlt; omega
        · simp only [h, hre, if_true, hstop, if_false] at hjlt
          rcases Nat.eq_or_lt_of_le hnj with heq | hlt
          · subst heq
            exact ⟨by omega, by omega, e, h, by simpa using hre⟩
          · exact ih (n + 1) (by omega) j (by omega) hjlt
      · simp [h, hre] at hjlt; omega

/-- C4: the retry wrapper around async_get_token surfaces a non-retryable
failure immediately after the single attempt that produced it; it
re-attempts retryable failures only while fewer than 10 attempts have run
and under 300 seconds have elapsed, whichever bound fires first; the
randomized exponential delay after attempt n is drawn from an interval whose
upper end is min 30 (1 * 2 ^ n), so each delay is capped at 30 seconds; and
the error finally surfaced is the failure raised by the last attempt
performed, never a synthesized exhaustion error. -/
theorem async_get_token_retry_policy (outcomes : Nat → Outcome)
    (elapsedAfter : Nat → Nat) :
    (∀ e, outcomes 1 = Outcome.failure e → isRetryableException e = false →
      async_get_token outcomes elapsedAfter = (Outcome.failure e, 1)) ∧
    (async_get_token outcomes elapsedAfter).2 ≤ 10 ∧
    (∀ e, (async_get_token outcomes elapsedAfter).1 = Outcome.failure e →
      outcomes ((async_get_token outcomes elapsedAfter).2) =
        Outcome.failure e) ∧
    (∀ j, 1 ≤ j → j < (async_get_token outcomes elapsedAfter).2 →
      j < 10 ∧ elapsedAfter j < 300 ∧
      ∃ e, outcomes j = Outcome.failure e ∧ isRetryableException e = true) ∧
    (∀ n, wait_random_exponential_upper 1 30 n = min 30 (2 ^ n) ∧
      wait_random_exponential_upper 1 30 n ≤ 30) := by
  refine ⟨?_, ?_, ?_, ?_, ?_⟩
  · intro e h hre
    rw [async_get_token, tenacityCall_eq, h]
    simp [hre]
  · exact tenacityCall_le_ten outcomes elapsedAfter 9 1 (by omega) (by omega)
  · exact fun e => tenacityCall_last_failure outcomes elapsedAfter 9 1 (by omega) e
  · exact fun j h1 h2 =>
      tenacityCall_budget outcomes elapsedAfter 9 1 (by omega) j h1 h2
  · intro n
    refine ⟨by simp [wait_random_exponential_upper], ?_⟩
    simp [wait_random_exponential_upper]

/-- Witness for C4: a concrete non-retryable first failure is surfaced at
once, after exactly one attempt. -/
theorem async_get_token_retry_policy_witness :
    async_get_token
        (fun _ => Outcome.failure
          { kind := FailureKind.clientError, request := none, response := none })
        (fun _ => 0) =
      (Outcome.failure
        { kind := FailureKind.clientError, request := none, response := none },
       1) :=
  (async_get_token_retry_policy _ _).1 _ rfl rfl
